import Mathlib

/-!
Shallow embedding of the `notm1ke/vpro` client library.

Source files embedded:
* `src/src/util.ts` — the `isError` result discriminator;
* `src/src/index.ts` — the `EndpointController` class: `authenticate`,
  `_authenticate`, `generateOAuthPayload`, `exec`, `getEndpoints`.

Modelling conventions:
* Promise resolution/rejection is explicit: every operation returns an
  outcome value that is either a resolved value or a `thrown` message
  (a rejected promise escaping the function).
* The HTTP transport (axios) is an oracle `Env`: the n-th network call of a
  run consumes index `n`; `Env.api` answers `client.request` calls and
  `Env.tok` answers the token-endpoint `client.post` calls.  `Env.jsonParse`
  models the JavaScript `JSON.parse` applied to an error body's `Message`
  string (`none` = `SyntaxError`), restricted to the four fields the code
  reads from the parsed value.
* Mutable fields of the controller (`accessToken`, `domainMode`, the axios
  default `Authorization` header) are threaded as an explicit `Controller`
  state.  In TypeScript `domainMode` is `undefined` until the first
  successful `authenticate`; `undefined` and `false` are indistinguishable
  under every use of the field (truthiness tests and being re-passed to
  `authenticate`), so the model initialises it to `false`.
* `exec`'s recursion (the 401 reauthentication branch re-dispatches the
  request through `exec` itself) is given a `fuel` parameter; exhausting
  the fuel yields the distinguished `outOfFuel` marker, so a run that
  returns `outOfFuel` for every fuel value models divergence.
* A run also yields the trace of network requests issued, so statements
  like "no network call before validation" and "no retry request" are
  equalities on traces.
-/

namespace Vpro

/-! ## JavaScript value model (for `util.ts`'s `isError`) -/

/-- A JavaScript value, as far as `isError` can observe one: `isError`
tests truthiness (`!value`) and property membership (`'message' in value`),
so objects are modelled by their property list. -/
inductive JsValue where
  | vnull : JsValue
  | vundefined : JsValue
  | vbool (b : Bool) : JsValue
  | vnum (n : Int) : JsValue
  | vstr (s : String) : JsValue
  | vobj (props : List (String × JsValue)) : JsValue

/-- JavaScript truthiness of a value. -/
def truthyJs : JsValue → Bool
  | .vnull => false
  | .vundefined => false
  | .vbool b => b
  | .vnum n => decide (n ≠ 0)
  | .vstr s => decide (s ≠ "")
  | .vobj _ => true

/-- The JavaScript `in` operator on an object value: does the object have
the named own property?  (Non-object operands are excluded by the
TypeScript constraint `T extends object` on `isError`.) -/
def hasProp : JsValue → String → Bool
  | .vobj props, k => props.any (fun kv => kv.1 = k)
  | _, _ => false

/-- `src/src/util.ts` `isError`:
`if (!value) return false; if ('message' in value) return true; return false;` -/
def isError (value : JsValue) : Bool :=
  if truthyJs value = false then false
  else if hasProp value "message" then true
  else false

/-! ## Data model (`src/src/types.ts`) -/

/-- The `grantType` argument of `authenticate`: `'password' | 'client_credentials'`. -/
inductive GrantType where
  | password : GrantType
  | client_credentials : GrantType
deriving DecidableEq, Repr

/-- `OAuthGrantPayload`: the token-request body together with its target
`url` (the `url` component is recovered by `OAuthGrantPayload.url`). -/
inductive OAuthGrantPayload where
  /-- `{ Upn, Password, url: '/latest/accessTokens/getUsingWindowsCredentials' }` -/
  | domain (Upn Password : String) : OAuthGrantPayload
  /-- `{ url: '/token', username, password }` -/
  | passwordGrant (username password : String) : OAuthGrantPayload
  /-- `{ url: '/token', client_id, client_secret }` -/
  | clientCreds (client_id client_secret : String) : OAuthGrantPayload
deriving DecidableEq, Repr

/-- The `url` field of an `OAuthGrantPayload`. -/
def OAuthGrantPayload.url : OAuthGrantPayload → String
  | .domain _ _ => "/latest/accessTokens/getUsingWindowsCredentials"
  | .passwordGrant _ _ => "/token"
  | .clientCreds _ _ => "/token"

/-- `ErrorResponse` from `types.ts`: `{ message: string; code: number }`. -/
structure ErrorResponse where
  code : Int
  message : String
deriving DecidableEq, Repr

/-- The mutable state of an `EndpointController` instance: the constructor
arguments `username`/`password` plus the fields written during the run
(`accessToken`, `domainMode`, and the axios default `Authorization` header). -/
structure Controller where
  username : String
  password : String
  accessToken : Option String := none
  domainMode : Bool := false
  authHeader : Option String := none
deriving DecidableEq, Repr

/-- `Endpoint` from `types.ts`. -/
structure Endpoint where
  EndpointId : String
  EndpointGroupId : String
  EndpointGroupName : String
  LastUpdate : String
  MEVersion : String
  ComputerName : String
  PlatformType : Int
  AgentVersion : Int
  AgentIdentifier : Int
  MEFWBuildNumber : Int
  PowerState : Int
  PowerStateUpdate : String
  IsConnected : Bool
  NodeIdentity : Int
  IsAmtVersionValid : Bool
  AmtControlMode : Int
  AmtProvisioningState : Int
  AmtProvisioningMode : Int
  IsCiraConnected : Bool
deriving DecidableEq, Repr

/-! ## Transport model -/

/-- The fields the code reads off an error-response body
(`err.response.data`), and likewise off the object produced by
`JSON.parse` of such a body's `Message` string.  `none` models an
absent/undefined (or `null`) field, which is exactly what `??` falls
through on. -/
structure ErrData where
  Message : Option String := none
  ExtendedCode : Option Int := none
  Code : Option Int := none
  ExtendedMessage : Option String := none
deriving DecidableEq, Repr

/-- A success-response body (`res.data`) as `exec` can observe one: the
typed payload `value` (what `res as T` yields) together with the fields a
dynamic read may find on the same object.  `exec` itself reads only
`Message`; the remaining fields record what a structured-error reading of
the same body would find (an array body has none of them). -/
structure RespData (T : Type) where
  value : T
  Message : Option String := none
  ExtendedCode : Option Int := none
  Code : Option Int := none
  ExtendedMessage : Option String := none
deriving DecidableEq, Repr

/-- The transport's answer to a `client.request` call, after axios
processing: a resolved response body, a rejected axios error carrying an
HTTP response (`err.response.status`, `err.response.statusText`,
`err.response.data`), or a rejected error with no response attached
(network failure / locally thrown error), carrying `err.message`. -/
inductive ApiResp (T : Type) where
  | ok (data : RespData T) : ApiResp T
  | httpErr (status : Int) (statusText : String) (data : ErrData) : ApiResp T
  | netErr (message : String) : ApiResp T
deriving DecidableEq, Repr

/-- The transport's answer to a token-endpoint `client.post`: a resolved
body (of which `_authenticate` reads only `access_token`, `none` when the
field is absent), or a rejection carrying `err.message`. -/
inductive TokResp where
  | ok (access_token : Option String) : TokResp
  | err (message : String) : TokResp
deriving DecidableEq, Repr

/-- The environment of a run: `api n` (resp. `tok n`) is the transport's
answer when the n-th network call of the run is a `client.request`
(resp. a token `client.post`); `jsonParse` is the JavaScript `JSON.parse`
restricted to the fields the code reads (`none` = `SyntaxError`). -/
structure Env (T : Type) where
  api : Nat → ApiResp T
  tok : Nat → TokResp
  jsonParse : String → Option ErrData

/-- One network request issued during a run. -/
inductive ReqEvent where
  | apiReq (method url : String) : ReqEvent
  | tokenReq (payload : OAuthGrantPayload) : ReqEvent
deriving DecidableEq, Repr

/-! ## Outcome types -/

/-- The value `authenticate` resolves with, per its declared return type
`Promise<EndpointController | ErrorResponse>`: the controller instance
(`return this`) or an `ErrorResponse` object.  The implementation only
ever resolves with the controller; the `errorValue` case exists because
`exec` matches on the union via `isError`. -/
inductive AuthValue where
  | controller : AuthValue
  | errorValue (e : ErrorResponse) : AuthValue
deriving DecidableEq, Repr

/-- `util.ts`'s `isError` applied to the value `authenticate` resolved
with: the controller instance is a truthy object with no `message`
property, an `ErrorResponse` object has one. -/
def isErrorAuth : AuthValue → Bool
  | .controller => false
  | .errorValue _ => true

/-- How a call to `authenticate` settles: resolved with a value, or
rejected (`thrown`) with an error message. -/
inductive AuthOutcome where
  | resolved (v : AuthValue) : AuthOutcome
  | thrown (message : String) : AuthOutcome
deriving DecidableEq, Repr

/-- How a call to `_authenticate` settles: resolved with the token
string, or rejected with an error message. -/
inductive AuthInner where
  | okToken (token : String) : AuthInner
  | thrownInner (message : String) : AuthInner
deriving DecidableEq, Repr

/-- How a call to `exec` settles: resolved with the typed payload, with a
normalized `ErrorResponse` object, or with `null` (the
`if (isError(auth)) return null` branch); or rejected (`thrown`); or the
model's fuel ran out (`outOfFuel`), marking divergence of the
source-level recursion. -/
inductive ExecResult (T : Type) where
  | success (v : T) : ExecResult T
  | errorResp (e : ErrorResponse) : ExecResult T
  | nullResult : ExecResult T
  | thrown (message : String) : ExecResult T
  | outOfFuel : ExecResult T
deriving DecidableEq, Repr

/-! ## `EndpointController` operations -/

/-- JavaScript truthiness of the optional string field read by
`if (res.Message)`: absent/undefined is falsy, and so is the empty string. -/
def truthyStr : Option String → Bool
  | none => false
  | some s => decide (s ≠ "")

/-- `generateOAuthPayload` (src/src/index.ts lines 105-120).  The trailing
`throw new Error('Invalid grant type')` of the source is unreachable for
the declared union type and has no counterpart here. -/
def generateOAuthPayload (username password : String) : GrantType → OAuthGrantPayload
  | .password => .passwordGrant username password
  | .client_credentials => .clientCreds username password

/-- `_authenticate` (src/src/index.ts lines 93-103): POST the payload to
its `url`; reject unless the response body has a non-empty (truthy)
`access_token`; on success store the token on the controller and resolve
with it.  Consumes one network index; returns the new controller state and
the requests issued. -/
def authInner (st : Controller) (payload : OAuthGrantPayload) {T : Type} (env : Env T)
    (n : Nat) : AuthInner × Controller × List ReqEvent :=
  let ev := ReqEvent.tokenReq payload
  match env.tok n with
  | .err m => (.thrownInner m, st, [ev])
  | .ok access_token =>
    match access_token with
    | none => (.thrownInner "Could not retrieve access token", st, [ev])
    | some t =>
      -- `if (!res.access_token || !('access_token' in res)) throw ...`:
      -- an empty string is falsy, so it is rejected as well.
      if t = "" then (.thrownInner "Could not retrieve access token", st, [ev])
      else (.okToken t, { st with accessToken := some t }, [ev])

/-- `authenticate` (src/src/index.ts lines 69-91).  Validation happens
before any network call; then the payload is selected, `_authenticate` is
awaited, and only on its success are `domainMode` and the default
`Authorization` header written and the controller resolved. -/
def authenticate (st : Controller) (domainCredentials : Bool)
    (grantType : Option GrantType) {T : Type} (env : Env T) (n : Nat) :
    AuthOutcome × Controller × Nat × List ReqEvent :=
  if !domainCredentials && grantType.isNone then
    (.thrown "Cannot authenticate without a grant type when not using domain credentials mode.",
      st, n, [])
  else if domainCredentials && grantType.isSome then
    (.thrown "Cannot authenticate with both domain credentials and grant type.", st, n, [])
  else
    -- `payload` starts as the domain-credentials payload and is replaced
    -- when not in domain mode; the validation above guarantees that
    -- `grantType` is present whenever `domainCredentials` is false.
    let payload :=
      match domainCredentials, grantType with
      | false, some g => generateOAuthPayload st.username st.password g
      | _, _ => OAuthGrantPayload.domain st.username st.password
    match authInner st payload env n with
    | (.thrownInner m, st', tr) => (.thrown m, st', n + 1, tr)
    | (.okToken t, st', tr) =>
      (.resolved .controller,
        { st' with domainMode := domainCredentials,
                   authHeader := some ("Bearer " ++ t) }, n + 1, tr)

/-- `.then(then)` with an optional callback: an undefined callback passes
the value through. -/
def applyThen {T : Type} : Option (T → T) → T → T
  | none, v => v
  | some f, v => f v

/-- The message of the `SyntaxError` raised by `JSON.parse` on an absent
or unparseable `Message` string (the exact text is engine-dependent; the
claims depend only on the rejection itself). -/
def jsonParseFailureMsg : String := "Unexpected token u in JSON at position 0"

/-- `exec` (src/src/index.ts lines 136-164).  The request consumes one
network index; a truthy `Message` on a success body is thrown and lands in
the catch with no `err.response` (the generic 500 branch); a 401 response
triggers `authenticate(this.domainMode)` (note: no grant type) followed —
when the resolved value is not an error — by a recursive re-dispatch that
drops the `then` callback; any other HTTP error response is normalized via
`JSON.parse(err.response.data.Message)`; a responseless error maps to
`{ code: 500, message: err.message }`. -/
def exec {T B : Type} : (fuel : Nat) → (st : Controller) → (env : Env T) → (n : Nat) →
    (method : String) → (url : String) → (payload : Option B) → (thenF : Option (T → T)) →
    ExecResult T × Controller × Nat × List ReqEvent
  | 0, st, _, n, _, _, _, _ => (.outOfFuel, st, n, [])
  | Nat.succ fuel, st, env, n, method, url, payload, thenF =>
    let ev := ReqEvent.apiReq method url
    match env.api n with
    | .ok data =>
      if truthyStr data.Message then
        -- `throw new Error(res.Message)` is caught by this call's own
        -- catch; the error carries no `response`, so it reaches the
        -- generic branch: `{ code: 500, message: err.message }`.
        (.errorResp { code := 500, message := data.Message.getD "" }, st, n + 1, [ev])
      else
        (.success (applyThen thenF data.value), st, n + 1, [ev])
    | .httpErr status statusText data =>
      if status = 401 then
        -- `let auth = await this.authenticate(this.domainMode);`
        match authenticate st st.domainMode none env (n + 1) with
        | (.thrown m, st', n', tr) =>
          -- the awaited reauthentication rejected: the rejection
          -- propagates out of `exec`.
          (.thrown m, st', n', ev :: tr)
        | (.resolved v, st', n', tr) =>
          if isErrorAuth v then (.nullResult, st', n', ev :: tr)
          else
            -- `return this.exec<T, B>(method, url, payload);`
            -- (the `then` callback is not forwarded).
            match exec fuel st' env n' method url payload none with
            | (r, st'', n'', tr') => (r, st'', n'', ev :: (tr ++ tr'))
      else
        -- `let data = JSON.parse(err.response.data.Message);`
        match data.Message with
        | none => (.thrown jsonParseFailureMsg, st, n + 1, [ev])
        | some s =>
          match env.jsonParse s with
          | none => (.thrown jsonParseFailureMsg, st, n + 1, [ev])
          | some d =>
            (.errorResp { code := d.ExtendedCode.getD (d.Code.getD status),
                          message := d.ExtendedMessage.getD (d.Message.getD statusText) },
              st, n + 1, [ev])
    | .netErr m => (.errorResp { code := 500, message := m }, st, n + 1, [ev])

/-- The URL built by `getEndpoints`:
`/latest/endpoints${groupId ? ?endpointGroupId=... : ''}` (an absent or
empty — falsy — `groupId` adds no query string). -/
def endpointsUrl (groupId : Option String) : String :=
  "/latest/endpoints" ++
    match groupId with
    | some g => if g = "" then "" else "?endpointGroupId=" ++ g
    | none => ""

/-- `getEndpoints` (src/src/index.ts lines 178-181): a GET through `exec`
with a `then` callback that filters the list by the caller's `where`
predicate when one is supplied. -/
def getEndpoints (fuel : Nat) (st : Controller) (env : Env (List Endpoint)) (n : Nat)
    (groupId : Option String) (wh : Option (Endpoint → Bool)) :
    ExecResult (List Endpoint) × Controller × Nat × List ReqEvent :=
  exec fuel st env n "GET" (endpointsUrl groupId) (none : Option Unit)
    (some (fun endpoints => match wh with | some w => endpoints.filter w | none => endpoints))

/-! ## Concrete inputs used by counterexamples and witnesses -/

/-- A controller that completed a domain-credentials authentication. -/
def ctrlDomain : Controller :=
  { username := "u", password := "p", accessToken := some "tok0",
    domainMode := true, authHeader := some "Bearer tok0" }

/-- A controller that completed a password-grant (OAuth) authentication:
`domainMode` was recorded as `false`; the grant type was not recorded
anywhere. -/
def ctrlOAuth : Controller :=
  { username := "u", password := "p", accessToken := some "tok0",
    domainMode := false, authHeader := some "Bearer tok0" }

/-- A fresh, never-authenticated controller. -/
def ctrlFresh : Controller := { username := "u", password := "p" }

/-- A transport that answers every API request with HTTP 401 and every
token request with a fresh token. -/
def env401 : Env Unit :=
  { api := fun _ => .httpErr 401 "Unauthorized" {},
    tok := fun _ => .ok (some "fresh"),
    jsonParse := fun _ => none }

/-- A transport that answers every API request with HTTP 401 and rejects
every token request. -/
def envAuthFail : Env Unit :=
  { api := fun _ => .httpErr 401 "Unauthorized" {},
    tok := fun _ => .err "bad creds",
    jsonParse := fun _ => none }

/-- A transport whose token endpoint resolves with a body lacking the
`access_token` field. -/
def envTokenMissing : Env Unit :=
  { api := fun _ => .httpErr 401 "Unauthorized" {},
    tok := fun _ => .ok none,
    jsonParse := fun _ => none }

/-- A transport answering with HTTP 400 and the structured body
`{ ExtendedCode: 42, ExtendedMessage: "bad state" }` (no `Message` field). -/
def envBadState : Env Unit :=
  { api := fun _ => .httpErr 400 "Bad Request"
      { ExtendedCode := some 42, ExtendedMessage := some "bad state" },
    tok := fun _ => .err "unused",
    jsonParse := fun _ => none }

/-- A transport answering with HTTP 400 whose error body's `Message` is
the string `"errjson"`, which `JSON.parse` turns into an object with
`ExtendedCode: 42, Code: 7, ExtendedMessage: "bad state", Message: "x"`. -/
def envParsedErr : Env Unit :=
  { api := fun _ => .httpErr 400 "Bad Request" { Message := some "errjson" },
    tok := fun _ => .err "unused",
    jsonParse := fun s =>
      if s = "errjson" then
        some { Message := some "x", ExtendedCode := some 42, Code := some 7,
               ExtendedMessage := some "bad state" }
      else none }

/-- A transport answering with a success status whose body carries
`Message: "boom"` (a soft error) alongside `ExtendedCode: 42` and
`ExtendedMessage: "bad state"`. -/
def envSoft : Env Unit :=
  { api := fun _ => .ok { value := (), Message := some "boom",
                          ExtendedCode := some 42, ExtendedMessage := some "bad state" },
    tok := fun _ => .err "unused",
    jsonParse := fun _ => none }

/-- A sample endpoint record. -/
def sampleEndpoint : Endpoint :=
  { EndpointId := "e-1", EndpointGroupId := "g-1", EndpointGroupName := "grp",
    LastUpdate := "2022-01-01", MEVersion := "16.0", ComputerName := "244XCS2",
    PlatformType := 1, AgentVersion := 3, AgentIdentifier := 7,
    MEFWBuildNumber := 1234, PowerState := 0, PowerStateUpdate := "2022-01-01",
    IsConnected := true, NodeIdentity := 9, IsAmtVersionValid := true,
    AmtControlMode := 1, AmtProvisioningState := 2, AmtProvisioningMode := 1,
    IsCiraConnected := true }

/-- A transport whose first answer is HTTP 401, whose token endpoint
succeeds, and whose subsequent API answers are the one-element endpoint
list. -/
def envRetryList : Env (List Endpoint) :=
  { api := fun n => if n = 0 then .httpErr 401 "Unauthorized" {}
                    else .ok { value := [sampleEndpoint] },
    tok := fun _ => .ok (some "t2"),
    jsonParse := fun _ => none }

/-- A transport whose API answers are always the one-element endpoint
list. -/
def envList : Env (List Endpoint) :=
  { api := fun _ => .ok { value := [sampleEndpoint] },
    tok := fun _ => .err "unused",
    jsonParse := fun _ => none }

/-- A domain-mode controller, as `envRetryList`'s retry leaves it. -/
def ctrlDomainRetried : Controller :=
  { username := "u", password := "p", accessToken := some "t2",
    domainMode := true, authHeader := some "Bearer t2" }

end Vpro

namespace Vpro

/-! ## Theorems -/

/-- C6: calling `authenticate` with `useDomainCredentials = false` and no
grant type, or with `useDomainCredentials = true` and a grant type, fails
with the corresponding configuration error; in both cases the state is
untouched, the network counter does not advance and the request trace is
empty, so the failure is determined before any network request is issued. -/
theorem authenticate_config_validation (st : Controller) (env : Env Unit) (n : Nat)
    (g : GrantType) :
    authenticate st false none env n =
      (.thrown "Cannot authenticate without a grant type when not using domain credentials mode.",
        st, n, []) ∧
    authenticate st true (some g) env n =
      (.thrown "Cannot authenticate with both domain credentials and grant type.", st, n, []) :=
  ⟨rfl, rfl⟩

/-- C10: the `isError` discriminator returns `false` on `null` and
`undefined`, and returns `true` on every object possessing a `message`
property — hence a success payload whose shape contains a `message` field
is classified as the error variant, and the discrimination is sound only
for payload shapes with no `message` key. -/
theorem isError_discriminator :
    isError JsValue.vnull = false ∧ isError JsValue.vundefined = false ∧
    ∀ props : List (String × JsValue),
      hasProp (JsValue.vobj props) "message" = true →
      isError (JsValue.vobj props) = true := by
  refine ⟨rfl, rfl, fun props h => ?_⟩
  simp [isError, truthyJs, h]

/-- Witness for C10: a concrete object carrying a `message` property (the
shape of a successful payload that happens to contain a `message` field)
is classified as an error by `isError`. -/
theorem isError_discriminator_witness :
    hasProp (JsValue.vobj [("message", JsValue.vstr "ok"), ("code", JsValue.vnum 7)]) "message"
      = true ∧
    isError (JsValue.vobj [("message", JsValue.vstr "ok"), ("code", JsValue.vnum 7)]) = true :=
  ⟨by decide, isError_discriminator.2.2 _ (by decide)⟩

end Vpro

namespace Vpro

/-- C1 counterexample: in domain mode, against a transport that answers
every API request with 401 and every token request with a fresh token,
a single `exec` call issues three API requests and three token requests
before the model's fuel (3) runs out — the original request is re-issued
more than once, and the second 401 is matched by the reauthentication
branch again (a second token request follows it). -/
theorem exec_single_retry_cex :
    (exec 3 ctrlDomain env401 0 "GET" "/latest/endpoints" (none : Option Unit) none).1
      = ExecResult.outOfFuel ∧
    (exec 3 ctrlDomain env401 0 "GET" "/latest/endpoints" (none : Option Unit) none).2.2.2
      = [ReqEvent.apiReq "GET" "/latest/endpoints",
         ReqEvent.tokenReq (OAuthGrantPayload.domain "u" "p"),
         ReqEvent.apiReq "GET" "/latest/endpoints",
         ReqEvent.tokenReq (OAuthGrantPayload.domain "u" "p"),
         ReqEvent.apiReq "GET" "/latest/endpoints",
         ReqEvent.tokenReq (OAuthGrantPayload.domain "u" "p")] :=
  ⟨rfl, rfl⟩

/-- C1 amended: the 401 branch re-dispatches the original request through
`exec` itself with no retry guard, so the retry count is bounded only by
the transport: in domain mode, against a transport that answers every API
request with 401 and every token request successfully, `exec` exhausts
every fuel bound — the source-level recursion never terminates. -/
theorem exec_retry_unbounded (fuel n : Nat) (st : Controller) (method url : String)
    (payload : Option Unit) (thenF : Option (Unit → Unit))
    (h : st.domainMode = true) :
    (exec fuel st env401 n method url payload thenF).1 = ExecResult.outOfFuel := by
  induction fuel generalizing n st thenF with
  | zero => rfl
  | succ fuel ih =>
    simp only [exec, env401, authenticate, authInner, generateOAuthPayload, isErrorAuth, h]
    exact ih (n + 2) _ none rfl

/-- Witness for C1 amended: the all-401 run from the concrete domain-mode
controller is out of fuel at fuel 5. -/
theorem exec_retry_unbounded_witness :
    (exec 5 ctrlDomain env401 0 "GET" "/latest/endpoints" (none : Option Unit) none).1
      = ExecResult.outOfFuel :=
  exec_retry_unbounded 5 0 ctrlDomain "GET" "/latest/endpoints" none none rfl

/-- C2: for a session whose recorded mode is OAuth (`domainMode = false`),
the 401-recovery path does not re-run the recorded OAuth grant: `exec`
calls `authenticate(this.domainMode)` with no grant type, which rejects
with the configuration error before any token request, and the rejection
propagates out of `exec`; the state is unchanged and the trace holds only
the original API request. -/
theorem exec_oauth_reauth_config_error (fuel n : Nat) (st : Controller) (env : Env Unit)
    (method url : String) (payload : Option Unit) (thenF : Option (Unit → Unit))
    (statusText : String) (d : ErrData)
    (hMode : st.domainMode = false) (hApi : env.api n = .httpErr 401 statusText d) :
    exec (fuel + 1) st env n method url payload thenF =
      (.thrown "Cannot authenticate without a grant type when not using domain credentials mode.",
        st, n + 1, [ReqEvent.apiReq method url]) := by
  simp [exec, hApi, hMode, authenticate]

/-- Witness for C2: a concrete OAuth-mode controller receiving a 401. -/
theorem exec_oauth_reauth_config_error_witness :
    exec 1 ctrlOAuth env401 0 "GET" "/x" (none : Option Unit) none =
      (.thrown "Cannot authenticate without a grant type when not using domain credentials mode.",
        ctrlOAuth, 1, [ReqEvent.apiReq "GET" "/x"]) :=
  exec_oauth_reauth_config_error 0 0 ctrlOAuth env401 "GET" "/x" none none "Unauthorized" {} rfl rfl

/-- C3 counterexample: a 401 answered by a failing reauthentication makes
`exec` reject (propagate the thrown error), not return the
reauthentication's error value: the run settles as `thrown "bad creds"`,
which is not an `errorResp` result; the trace shows no retry request. -/
theorem exec_reauth_failure_cex :
    (exec 5 ctrlDomain envAuthFail 0 "GET" "/x" (none : Option Unit) none).1
      = ExecResult.thrown "bad creds" ∧
    (exec 5 ctrlDomain envAuthFail 0 "GET" "/x" (none : Option Unit) none).2.2.2
      = [ReqEvent.apiReq "GET" "/x", ReqEvent.tokenReq (OAuthGrantPayload.domain "u" "p")] :=
  ⟨rfl, rfl⟩

/-- C3 amended: when the 401-triggered reauthentication fails (the token
endpoint rejects), its thrown error propagates as `exec`'s own rejection
(the `isError`/`return null` branch is unreachable because `authenticate`
never resolves with an error value); no retry request is issued and the
state is unchanged. -/
theorem exec_reauth_failure_propagates (fuel n : Nat) (st : Controller) (env : Env Unit)
    (method url : String) (payload : Option Unit) (thenF : Option (Unit → Unit))
    (m statusText : String) (d : ErrData)
    (hMode : st.domainMode = true) (hApi : env.api n = .httpErr 401 statusText d)
    (hTok : env.tok (n + 1) = .err m) :
    exec (fuel + 1) st env n method url payload thenF =
      (.thrown m, st, n + 2,
        [ReqEvent.apiReq method url,
         ReqEvent.tokenReq (OAuthGrantPayload.domain st.username st.password)]) := by
  simp [exec, hApi, hMode, authenticate, authInner, hTok]

/-- Witness for C3 amended: concrete domain-mode controller, 401, failing
token endpoint. -/
theorem exec_reauth_failure_propagates_witness :
    exec 1 ctrlDomain envAuthFail 0 "GET" "/x" (none : Option Unit) none =
      (.thrown "bad creds", ctrlDomain, 2,
        [ReqEvent.apiReq "GET" "/x", ReqEvent.tokenReq (OAuthGrantPayload.domain "u" "p")]) :=
  exec_reauth_failure_propagates 0 0 ctrlDomain envAuthFail "GET" "/x" none none
    "bad creds" "Unauthorized" {} rfl rfl rfl

end Vpro

namespace Vpro

/-- C4 counterexample: on a non-401 failure status with the structured
body `ExtendedCode: 42, ExtendedMessage: "bad state"` (and no `Message`
field), `exec` does not return `Error (code 42, message "bad state")`:
`JSON.parse(err.response.data.Message)` is applied to an absent field and
its `SyntaxError` rejects the call. -/
theorem exec_error_body_cex :
    (exec 1 ctrlDomain envBadState 0 "GET" "/x" (none : Option Unit) none).1
      = ExecResult.thrown jsonParseFailureMsg ∧
    (exec 1 ctrlDomain envBadState 0 "GET" "/x" (none : Option Unit) none).1
      ≠ ExecResult.errorResp { code := 42, message := "bad state" } :=
  ⟨rfl, by decide⟩

/-- C4 amended: on a non-401 failure response, the structured fields are
read from the object obtained by `JSON.parse` of the body's `Message`
string: the code is the parsed `ExtendedCode`, else the parsed `Code`,
else the raw HTTP status; the message is the parsed `ExtendedMessage`,
else the parsed `Message`, else the HTTP status text.  (A body whose
`Message` is absent or unparseable instead rejects the call, as the
counterexample shows.) -/
theorem exec_error_precedence (fuel n : Nat) (st : Controller) (env : Env Unit)
    (method url : String) (payload : Option Unit) (thenF : Option (Unit → Unit))
    (status : Int) (statusText : String) (d : ErrData) (s : String) (pd : ErrData)
    (hStatus : status ≠ 401) (hApi : env.api n = .httpErr status statusText d)
    (hMsg : d.Message = some s) (hParse : env.jsonParse s = some pd) :
    exec (fuel + 1) st env n method url payload thenF =
      (.errorResp { code := pd.ExtendedCode.getD (pd.Code.getD status),
                    message := pd.ExtendedMessage.getD (pd.Message.getD statusText) },
        st, n + 1, [ReqEvent.apiReq method url]) := by
  simp [exec, hApi, hStatus, hMsg, hParse]

/-- Witness for C4 amended: HTTP 400 whose body's `Message` parses to
`ExtendedCode: 42, Code: 7, ExtendedMessage: "bad state", Message: "x"`
yields `Error (code 42, message "bad state")`. -/
theorem exec_error_precedence_witness :
    exec 1 ctrlDomain envParsedErr 0 "GET" "/x" (none : Option Unit) none =
      (.errorResp { code := 42, message := "bad state" },
        ctrlDomain, 1, [ReqEvent.apiReq "GET" "/x"]) :=
  exec_error_precedence 0 0 ctrlDomain envParsedErr "GET" "/x" none none
    400 "Bad Request" { Message := some "errjson" } "errjson"
    { Message := some "x", ExtendedCode := some 42, Code := some 7,
      ExtendedMessage := some "bad state" }
    (by decide) rfl rfl rfl

/-- C5 counterexample: with a valid configuration (domain mode, no grant
type) and a token-endpoint response lacking `access_token`, `authenticate`
neither resolves with the session nor resolves with an error value — it
rejects with the protocol error, so "returns the session or returns a
structured Error" fails as stated. -/
theorem authenticate_missing_token_cex :
    (authenticate ctrlFresh true none envTokenMissing 0).1
      = AuthOutcome.thrown "Could not retrieve access token" ∧
    (authenticate ctrlFresh true none envTokenMissing 0).1 ≠ AuthOutcome.resolved .controller :=
  ⟨rfl, by decide⟩

/-- C5 amended: for every valid grant configuration, `authenticate` either
resolves with the controller — the stored token then being some non-empty
string — or rejects with a thrown error, never both and never neither (it
never resolves with an error value); and a token-endpoint response whose
`access_token` is absent or empty always rejects with the protocol error,
never being accepted as success. -/
theorem authenticate_resolves_or_throws (dc : Bool) (gt : Option GrantType)
    (st : Controller) (env : Env Unit) (n : Nat)
    (h1 : dc = false → gt ≠ none) (h2 : dc = true → gt = none) :
    (((authenticate st dc gt env n).1 = .resolved .controller ∧
        ∃ t, (authenticate st dc gt env n).2.1.accessToken = some t ∧ t ≠ "") ∨
      (∃ m, (authenticate st dc gt env n).1 = .thrown m)) ∧
    (env.tok n = .ok none ∨ env.tok n = .ok (some "") →
      (authenticate st dc gt env n).1 = .thrown "Could not retrieve access token") := by
  cases dc with
  | false =>
    cases gt with
    | none => exact absurd rfl (h1 rfl)
    | some g =>
      constructor
      · cases htok : env.tok n with
        | err m =>
          right
          exact ⟨m, by simp [authenticate, authInner, htok]⟩
        | ok t =>
          cases t with
          | none =>
            right
            exact ⟨"Could not retrieve access token", by simp [authenticate, authInner, htok]⟩
          | some tk =>
            by_cases he : tk = ""
            · right
              exact ⟨"Could not retrieve access token",
                by simp [authenticate, authInner, htok, he]⟩
            · left
              refine ⟨by simp [authenticate, authInner, htok, he], tk, ?_, he⟩
              simp [authenticate, authInner, htok, he]
      · intro hmiss
        rcases hmiss with hmiss | hmiss <;> simp [authenticate, authInner, hmiss]
  | true =>
    cases gt with
    | some g => exact absurd (h2 rfl) (by simp)
    | none =>
      constructor
      · cases htok : env.tok n with
        | err m =>
          right
          exact ⟨m, by simp [authenticate, authInner, htok]⟩
        | ok t =>
          cases t with
          | none =>
            right
            exact ⟨"Could not retrieve access token", by simp [authenticate, authInner, htok]⟩
          | some tk =>
            by_cases he : tk = ""
            · right
              exact ⟨"Could not retrieve access token",
                by simp [authenticate, authInner, htok, he]⟩
            · left
              refine ⟨by simp [authenticate, authInner, htok, he], tk, ?_, he⟩
              simp [authenticate, authInner, htok, he]
      · intro hmiss
        rcases hmiss with hmiss | hmiss <;> simp [authenticate, authInner, hmiss]

/-- Witness for C5 amended: the domain-mode configuration against the
token endpoint that omits `access_token`. -/
theorem authenticate_resolves_or_throws_witness :
    (((authenticate ctrlFresh true none envTokenMissing 0).1 = .resolved .controller ∧
        ∃ t, (authenticate ctrlFresh true none envTokenMissing 0).2.1.accessToken = some t ∧
          t ≠ "") ∨
      (∃ m, (authenticate ctrlFresh true none envTokenMissing 0).1 = .thrown m)) ∧
    (envTokenMissing.tok 0 = .ok none ∨ envTokenMissing.tok 0 = .ok (some "") →
      (authenticate ctrlFresh true none envTokenMissing 0).1
        = .thrown "Could not retrieve access token") :=
  authenticate_resolves_or_throws true none ctrlFresh envTokenMissing 0
    (by simp) (fun _ => rfl)

end Vpro

namespace Vpro

/-- C7 counterexample: a success-status body carrying
`Message: "boom", ExtendedCode: 42, ExtendedMessage: "bad state"` is
returned as `Error (code 500, message "boom")` — the error variant, but
via the generic path, not the structured precedence chain, which would
have produced `Error (code 42, message "bad state")` from that body. -/
theorem exec_soft_error_cex :
    (exec 1 ctrlDomain envSoft 0 "GET" "/x" (none : Option Unit) none).1
      = ExecResult.errorResp { code := 500, message := "boom" } ∧
    (exec 1 ctrlDomain envSoft 0 "GET" "/x" (none : Option Unit) none).1
      ≠ ExecResult.errorResp { code := 42, message := "bad state" } :=
  ⟨rfl, by decide⟩

/-- C7 amended: a success-status body whose `Message` field is a
non-empty string is treated as a failure, never returned as a payload:
the thrown `Error(res.Message)` lands in the catch with no attached
response, so `exec` returns `Error (code 500, message = the body's
Message)` via the generic branch — not via the structured-body precedence
chain.  (A body whose `Message` is the empty string is falsy and is
returned as success.) -/
theorem exec_soft_error_generic (fuel n : Nat) (st : Controller) (env : Env Unit)
    (method url : String) (payload : Option Unit) (thenF : Option (Unit → Unit))
    (d : RespData Unit) (m : String)
    (hApi : env.api n = .ok d) (hMsg : d.Message = some m) (hNe : m ≠ "") :
    exec (fuel + 1) st env n method url payload thenF =
      (.errorResp { code := 500, message := m }, st, n + 1, [ReqEvent.apiReq method url]) := by
  simp [exec, hApi, truthyStr, hMsg, hNe]

/-- Witness for C7 amended: the concrete soft-error body. -/
theorem exec_soft_error_generic_witness :
    exec 2 ctrlDomain envSoft 0 "GET" "/x" (none : Option Unit) none =
      (.errorResp { code := 500, message := "boom" },
        ctrlDomain, 1, [ReqEvent.apiReq "GET" "/x"]) :=
  exec_soft_error_generic 1 0 ctrlDomain envSoft "GET" "/x" none none
    { value := (), Message := some "boom", ExtendedCode := some 42,
      ExtendedMessage := some "bad state" } "boom" rfl rfl (by decide)

/-- C8: whenever `authenticate` fails (rejects) — invalid configuration,
token endpoint rejection, or a malformed token response — the controller
state is left entirely unchanged: the stored token (and the recorded mode
and header) are written only on success. -/
theorem authenticate_failure_preserves_state (dc : Bool) (gt : Option GrantType)
    (st : Controller) (env : Env Unit) (n : Nat) (msg : String)
    (h : (authenticate st dc gt env n).1 = .thrown msg) :
    (authenticate st dc gt env n).2.1 = st := by
  by_cases hc1 : (!dc && gt.isNone) = true
  · simp [authenticate, hc1]
  · by_cases hc2 : (dc && gt.isSome) = true
    · simp [authenticate, hc1, hc2]
    · cases htok : env.tok n with
      | err m => simp [authenticate, authInner, hc1, hc2, htok]
      | ok t =>
        cases t with
        | none => simp [authenticate, authInner, hc1, hc2, htok]
        | some tk =>
          by_cases he : tk = ""
          · simp [authenticate, authInner, hc1, hc2, htok, he]
          · exfalso
            simp [authenticate, authInner, hc1, hc2, htok, he] at h

/-- Witness for C8: a failing domain-mode reauthentication attempt leaves
the previously authenticated controller (and its stale token) unchanged. -/
theorem authenticate_failure_preserves_state_witness :
    (authenticate ctrlDomain true none envAuthFail 0).2.1 = ctrlDomain :=
  authenticate_failure_preserves_state true none ctrlDomain envAuthFail 0 "bad creds" rfl

/-- C9 counterexample: when the first response is a 401 and the retried
fetch succeeds, the retry drops the `then` postprocess, so `getEndpoints`
with the nowhere-true predicate returns the retried list unfiltered
(`[sampleEndpoint]`) instead of the empty filtered list. -/
theorem getEndpoints_retry_unfiltered_cex :
    (getEndpoints 2 ctrlDomain envRetryList 0 none (some (fun _ => false))).1
      = ExecResult.success [sampleEndpoint] ∧
    (getEndpoints 2 ctrlDomain envRetryList 0 none (some (fun _ => false))).1
      ≠ ExecResult.success [] :=
  ⟨rfl, by decide⟩

/-- C9 amended: when the fetch succeeds directly (no 401 retry), the
result is the fetched list filtered client-side by the `where` predicate —
a predicate matching zero items yields the empty success list — and the
request sent to the server is `GET endpointsUrl groupId`, independent of
the predicate.  (After a 401-triggered retry the postprocess is dropped
and the retried list is returned unfiltered, as the counterexample
shows.) -/
theorem getEndpoints_filters_after_success (fuel n : Nat) (st : Controller)
    (env : Env (List Endpoint)) (groupId : Option String) (w : Endpoint → Bool)
    (l : List Endpoint) (d : RespData (List Endpoint))
    (hApi : env.api n = .ok d) (hMsg : d.Message = none) (hVal : d.value = l) :
    getEndpoints (fuel + 1) st env n groupId (some w) =
      (.success (l.filter w), st, n + 1,
        [ReqEvent.apiReq "GET" (endpointsUrl groupId)]) := by
  simp [getEndpoints, exec, hApi, truthyStr, hMsg, hVal, applyThen]

/-- Witness for C9 amended: a direct successful fetch with a
nowhere-true predicate narrows to the empty success list. -/
theorem getEndpoints_filters_after_success_witness :
    getEndpoints 1 ctrlDomain envList 0 none (some (fun _ => false)) =
      (.success [], ctrlDomain, 1, [ReqEvent.apiReq "GET" (endpointsUrl none)]) :=
  getEndpoints_filters_after_success 0 0 ctrlDomain envList none (fun _ => false)
    [sampleEndpoint] { value := [sampleEndpoint] } rfl rfl rfl

end Vpro
